import Mathlib

/-!
Verification of the wine-maceration driver (`maceration-driver.py` and
`maceration-driver-raspberry-pico.py`).

Modelling conventions:
* Times (`datetime` values) are modelled as integers counting whole seconds;
  `timedelta(minutes = m)` becomes `m * 60`, etc.
* Every call to `datetime.now()` in the Python source consumes one value from
  a clock stream `σ : Nat → Int` at a running index `k`, so re-reads of the
  clock inside one loop iteration are visible in the model.
* Python exceptions are modelled with `Except (PyError × State) _`; the error
  carries the state at the raise point, because object-field mutations that
  happened before the raise persist.
* `sensor.get_temperature()` and `client.send_message(...)` outcomes and
  `client.connected` are inputs supplied by an `Env`; temperatures are carried
  in tenths of a degree so that the `{:.1f}` rendering is exact.
* The LCD is an event log of `(row, col, text)` writes; `time.sleep(d)` logs
  `d` into the `slept` list.
-/

namespace Macerator

abbrev Time := Int

/-- Kinds of Python exceptions relevant to the driver: the `TypeError`
raised when `None` takes part in a comparison or `min`, the sensor-read
exception, and the Azure send exception. -/
inductive PyError
  | typeError
  | sensorError
  | sendError
deriving DecidableEq, Repr

/-- One `lcd.write_string` event at the current cursor position. -/
structure LcdWrite where
  row : Nat
  col : Nat
  text : String
deriving DecidableEq, Repr

/-- The mutable fields of `WineMacerator` (plus event logs for the LCD, the
Azure sends, the `logging.error` calls and the `time.sleep` durations).
`relay` is `self.relay.value` (true = on). -/
structure State where
  relay : Bool
  relay_end_time : Option Time
  next_temp_update : Time
  next_relay_activation : Time
  next_second_update : Time
  end_maceration_time : Time
  lcd : List LcdWrite
  sends : List String
  logs : List String
  slept : List Time
deriving Repr

/-- Outcomes of the external collaborators during one temperature update:
the sensor read (tenths of a degree, or a raised exception), whether
`client.send_message` succeeds, and `client.connected`. -/
structure Env where
  sensor : Except Unit Int
  send_ok : Bool
  connected : Bool

def RELAY_DURATION_MINUTES : Int := 2
def MIXTURE_INTERVAL_HOURS : Int := 6
def TEMP_UPDATE_INTERVAL_MINUTES : Int := 15
def MACERATION_DURATION_DAYS : Int := 14

/-- `timedelta(minutes=RELAY_DURATION_MINUTES)` in seconds. -/
def RELAY_DURATION : Time := RELAY_DURATION_MINUTES * 60
/-- `timedelta(hours=MIXTURE_INTERVAL_HOURS)` in seconds. -/
def MIXTURE_INTERVAL : Time := MIXTURE_INTERVAL_HOURS * 3600
/-- `timedelta(minutes=TEMP_UPDATE_INTERVAL_MINUTES)` in seconds. -/
def TEMP_UPDATE_INTERVAL : Time := TEMP_UPDATE_INTERVAL_MINUTES * 60
/-- `timedelta(days=MACERATION_DURATION_DAYS)` in seconds. -/
def MACERATION_DURATION : Time := MACERATION_DURATION_DAYS * 86400

/-- Append one LCD write event (cursor_pos assignment followed by
`write_string`). -/
def writeLcd (row col : Nat) (text : String) (s : State) : State :=
  { s with lcd := ⟨row, col, text⟩ :: s.lcd }

/-- Python's `str.ljust(w)`: pad with spaces on the right up to width `w`. -/
def ljust (s : String) (w : Nat) : String :=
  s ++ String.mk (List.replicate (w - s.length) ' ')

/-- Python's `"{:02d}".format(n)`: decimal rendering zero-padded to width 2. -/
def pad2 (n : Int) : String :=
  let r := toString n
  if r.length < 2 then "0" ++ r else r

/-- Python's `"{:.1f}".format(t/10)` for a temperature carried in tenths of a
degree. -/
def fmtTemp (t : Int) : String :=
  if t < 0 then "-" ++ toString ((-t).toNat / 10) ++ "." ++ toString ((-t).toNat % 10)
  else toString (t.toNat / 10) ++ "." ++ toString (t.toNat % 10)

/-- `json.dumps({"wine_temp": temperature})`. -/
def jsonTemp (t : Int) : String :=
  "\x7b\"wine_temp\": " ++ fmtTemp t ++ "\x7d"

/-- `WineMacerator.set_initial_times` (lines 93-98): four separate
`datetime.now()` calls initialize the deadlines; `relay_end_time` is `None`. -/
def set_initial_times (σ : Nat → Time) (k : Nat) (s : State) : State × Nat :=
  ({ s with
      relay_end_time := none,
      next_temp_update := σ k,
      next_relay_activation := σ (k+1),
      next_second_update := σ (k+2),
      end_maceration_time := σ (k+3) + MACERATION_DURATION }, k + 4)

/-- A freshly constructed `WineMacerator` after `initialize_components`
(relay constructed off, empty logs) and `set_initial_times`. -/
def initMacerator (σ : Nat → Time) (k : Nat) : State × Nat :=
  set_initial_times σ k
    { relay := false, relay_end_time := none, next_temp_update := 0,
      next_relay_activation := 0, next_second_update := 0,
      end_maceration_time := 0, lcd := [], sends := [], logs := [], slept := [] }

/-- `WineMacerator.set_next_temp_update_time` (line 107): re-reads the clock. -/
def set_next_temp_update_time (σ : Nat → Time) (k : Nat) (s : State) : State × Nat :=
  ({ s with next_temp_update := σ k + TEMP_UPDATE_INTERVAL }, k + 1)

/-- `WineMacerator.get_temperature_from_sensor` (line 110): an unguarded
`self.sensor.get_temperature()` call; a sensor failure raises. -/
def get_temperature_from_sensor (env : Env) (s : State) : Except (PyError × State) Int :=
  match env.sensor with
  | .ok t => .ok t
  | .error _ => .error (.sensorError, s)

/-- `WineMacerator.display_azure_connection_status` (lines 118-120). -/
def display_azure_connection_status (env : Env) (s : State) : State :=
  writeLcd 0 12 (if env.connected then "OK-A" else "NO-A") s

/-- `WineMacerator.display_info_on_lcd` (lines 112-116): re-reads the clock
for `remaining_days` (`timedelta.days` floors, hence `fdiv`). -/
def display_info_on_lcd (σ : Nat → Time) (k : Nat) (env : Env) (temperature : Int)
    (s : State) : State × Nat :=
  let remaining_days := (s.end_maceration_time - σ k).fdiv 86400
  let s := writeLcd 0 0
    (ljust ("T:" ++ fmtTemp temperature ++ " D:" ++ toString remaining_days) 11) s
  (display_azure_connection_status env s, k + 1)

/-- `AzureIoTConnect.send_message` (lines 51-60): on failure it logs
"Failed to send message to Azure IoT Hub" and then RE-RAISES the exception. -/
def send_message (env : Env) (payload : String) (s : State) :
    Except (PyError × State) State :=
  let s := { s with sends := payload :: s.sends }
  if env.send_ok then .ok s
  else .error (.sendError,
    { s with logs := "Failed to send message to Azure IoT Hub" :: s.logs })

/-- `WineMacerator.update_temperature` (lines 100-104): reschedule first
(consuming a fresh clock read), then read the sensor (may raise), then render,
then send (may raise). -/
def update_temperature (σ : Nat → Time) (k : Nat) (env : Env) (s : State) :
    Except (PyError × State) (State × Nat) :=
  let (s, k) := set_next_temp_update_time σ k s
  match get_temperature_from_sensor env s with
  | .error e => .error e
  | .ok temperature =>
    let (s, k) := display_info_on_lcd σ k env temperature s
    match send_message env (jsonTemp temperature) s with
    | .error e => .error e
    | .ok s => .ok (s, k)

/-- `WineMacerator.display_blending_started_on_lcd` (lines 130-132). -/
def display_blending_started_on_lcd (s : State) : State :=
  writeLcd 1 0 (ljust "Mieszanie: --:--" 16) s

/-- `WineMacerator.set_relay_end_time` (line 128): re-reads the clock. -/
def set_relay_end_time (σ : Nat → Time) (k : Nat) (s : State) : State × Nat :=
  ({ s with relay_end_time := some (σ k + RELAY_DURATION) }, k + 1)

/-- `WineMacerator.activate_relay` (lines 122-125). -/
def activate_relay (σ : Nat → Time) (k : Nat) (s : State) : State × Nat :=
  let s := { s with relay := true }
  let (s, k) := set_relay_end_time σ k s
  (display_blending_started_on_lcd s, k)

/-- `WineMacerator.set_next_relay_activation_time` (line 139): re-reads the
clock. -/
def set_next_relay_activation_time (σ : Nat → Time) (k : Nat) (s : State) : State × Nat :=
  ({ s with next_relay_activation := σ k + MIXTURE_INTERVAL }, k + 1)

/-- `WineMacerator.deactivate_relay` (lines 134-136). -/
def deactivate_relay (σ : Nat → Time) (k : Nat) (s : State) : State × Nat :=
  let s := { s with relay := false }
  set_next_relay_activation_time σ k s

/-- The f-string of `WineMacerator.display_time_on_lcd` (lines 146-150).
`int(x / 60)` truncates toward zero (`tdiv`); the float `%` has the sign of
the divisor (`emod`). -/
def display_time_on_lcd (remaining : Time) (relay_active : Bool) : String :=
  if relay_active then
    ljust ("Blend: " ++ toString (remaining.tdiv 60) ++ ":" ++ pad2 (remaining.emod 60)) 16
  else
    ljust ("Next: " ++ toString (remaining.tdiv 3600) ++ ":"
      ++ pad2 ((remaining.emod 3600).tdiv 60) ++ ":" ++ pad2 (remaining.emod 60)) 16

/-- `WineMacerator.update_relay_timer` (lines 141-144): selects the live
relay deadline by relay state (subtracting from a `None` deadline would raise
`TypeError`), re-reads the clock, and writes the countdown to row 1. -/
def update_relay_timer (σ : Nat → Time) (k : Nat) (s : State) :
    Except (PyError × State) (State × Nat) :=
  match (if s.relay then s.relay_end_time else some s.next_relay_activation) with
  | none => .error (.typeError, s)
  | some t =>
    let remaining := t - σ k
    .ok (writeLcd 1 0 (display_time_on_lcd remaining s.relay) s, k + 1)

/-- The conditional expression of line 169: the relay-relevant deadline
selected by the current relay state. -/
def relay_relevant_deadline (s : State) : Option Time :=
  if s.relay then s.relay_end_time else some s.next_relay_activation

/-- Line 169: `min(next_temp_update, next_second_update, relay-relevant)`.
A `None` operand raises `TypeError`. -/
def next_event_time (s : State) : Except (PyError × State) Time :=
  match relay_relevant_deadline s with
  | none => .error (.typeError, s)
  | some t => .ok (min (min s.next_temp_update s.next_second_update) t)

/-- Line 170: `time.sleep(max(0, (next_event_time - current_time).total_seconds()))`,
logged into `slept`. -/
def sleep_step (current_time : Time) (s : State) (k : Nat) :
    Except (PyError × State) (State × Nat) :=
  match next_event_time s with
  | .error e => .error e
  | .ok t => .ok ({ s with slept := max 0 (t - current_time) :: s.slept }, k)

/-- Lines 157-158: run the temperature update when due. -/
def temp_phase (σ : Nat → Time) (k : Nat) (env : Env) (current_time : Time)
    (s : State) : Except (PyError × State) (State × Nat) :=
  if s.next_temp_update ≤ current_time then update_temperature σ k env s
  else .ok (s, k)

/-- Lines 160-163: the relay `if/elif`. When the relay is on, the comparison
`current_time >= relay_end_time` raises `TypeError` if `relay_end_time` is
`None`; when it is off, `relay_end_time` is never compared. -/
def relay_phase (σ : Nat → Time) (k : Nat) (current_time : Time) (s : State) :
    Except (PyError × State) (State × Nat) :=
  if s.relay then
    match s.relay_end_time with
    | none => .error (.typeError, s)
    | some t => if t ≤ current_time then .ok (deactivate_relay σ k s) else .ok (s, k)
  else
    if s.next_relay_activation ≤ current_time then .ok (activate_relay σ k s)
    else .ok (s, k)

/-- Lines 165-167: display refresh when due; note `next_second_update` is
rescheduled from the snapshot `current_time`, not from a fresh read. -/
def display_phase (σ : Nat → Time) (k : Nat) (current_time : Time) (s : State) :
    Except (PyError × State) (State × Nat) :=
  if s.next_second_update ≤ current_time then
    match update_relay_timer σ k s with
    | .error e => .error e
    | .ok (s, k) => .ok ({ s with next_second_update := current_time + 1 }, k)
  else .ok (s, k)

/-- Sequencing of the loop-body phases; an exception aborts the iteration. -/
def bindE (x : Except (PyError × State) (State × Nat))
    (f : State → Nat → Except (PyError × State) (State × Nat)) :
    Except (PyError × State) (State × Nat) :=
  match x with
  | .error e => .error e
  | .ok (s, k) => f s k

/-- One body of the `while` loop in `WineMacerator.run` (lines 155-170):
one snapshot read `current_time := σ k`, then the four phases in source
order. -/
def iterBody (σ : Nat → Time) (k : Nat) (env : Env) (s : State) :
    Except (PyError × State) (State × Nat) :=
  let current_time := σ k
  bindE (temp_phase σ (k+1) env current_time s) fun s k =>
    bindE (relay_phase σ k current_time s) fun s k =>
      bindE (display_phase σ k current_time s) fun s k =>
        sleep_step current_time s k

/-- Outcome of a bounded unrolling of the `while` loop. -/
inductive RunResult
  | finished : State → Nat → RunResult
  | outOfFuel : State → Nat → RunResult
deriving Repr

/-- Lines 172-173: after the loop, `lcd.clear()` then
`lcd.write_string("Zakonczono proces")`. -/
def finish (s : State) : State :=
  writeLcd 0 0 "Zakonczono proces" { s with lcd := [] }

/-- The `while datetime.now() < self.end_maceration_time` loop of
`WineMacerator.run` (lines 154-173), unrolled up to `fuel` iterations.
The loop condition consumes its own clock read, separate from the
iteration snapshot. `i` indexes the per-iteration environment. -/
def runLoop (σ : Nat → Time) (envs : Nat → Env) :
    Nat → Nat → Nat → State → Except (PyError × State) RunResult
  | 0, _, k, s => .ok (.outOfFuel s k)
  | fuel + 1, i, k, s =>
    if σ k < s.end_maceration_time then
      match iterBody σ (k+1) (envs i) s with
      | .error e => .error e
      | .ok (s, k) => runLoop σ envs fuel (i+1) k s
    else
      .ok (.finished (finish s) (k+1))

/-- `WineMacerator.run` (lines 152-173): the initial connection-status
write, then the loop. -/
def run (σ : Nat → Time) (env0 : Env) (envs : Nat → Env) (fuel k : Nat)
    (s : State) : Except (PyError × State) RunResult :=
  runLoop σ envs fuel 0 k (display_azure_connection_status env0 s)

/-- State reached by a loop-body/action result, whether it returned normally
or raised (the raise carries the mutated state). -/
def resState : Except (PyError × State) (State × Nat) → State
  | .ok (s, _) => s
  | .error (_, s) => s

/-- State reached by a `runLoop` result. -/
def finalState : Except (PyError × State) RunResult → State
  | .ok (.finished s _) => s
  | .ok (.outOfFuel s _) => s
  | .error (_, s) => s

/-- Clock index reached by a normal `runLoop` result. -/
def finalIndex : Except (PyError × State) RunResult → Option Nat
  | .ok (.finished _ k) => some k
  | .ok (.outOfFuel _ k) => some k
  | .error _ => none

/-- The exception kind of a result, if it raised. -/
def errKind {α : Type} : Except (PyError × State) α → Option PyError
  | .error (e, _) => some e
  | .ok _ => none

/-- The relay transition the conditions of lines 160-163 fire at snapshot
`now` from state `s`: `some true` = activation, `some false` = deactivation,
`none` = no transition (or the `None` comparison raises first). -/
def relay_transition (now : Time) (s : State) : Option Bool :=
  if s.relay then
    match s.relay_end_time with
    | none => none
    | some t => if t ≤ now then some false else none
  else
    if s.next_relay_activation ≤ now then some true else none

/-- The relay sub-machine driven by one simulated `now` (all clock reads of
the step return `now`). -/
def relay_step (now : Time) (s : State) : Except (PyError × State) (State × Nat) :=
  relay_phase (fun _ => now) 0 now s

/-- The sequence of relay transitions fired along a list of simulated `now`
values (stopping if the step raises). -/
def relayEvents : List Time → State → List Bool
  | [], _ => []
  | now :: rest, s =>
    match relay_step now s with
    | .error _ => []
    | .ok (s', _) =>
      match relay_transition now s with
      | none => relayEvents rest s'
      | some ev => ev :: relayEvents rest s'

/-- The invariant backing the `None` comparisons: whenever the relay output
is on, `relay_end_time` holds a real timestamp. -/
def RelayEndInv (s : State) : Prop :=
  s.relay = true → s.relay_end_time ≠ none

end Macerator

namespace Pico

/-- Global state touched by `measure_temperature` in
`maceration-driver-raspberry-pico.py`: the `current_temperature` string, the
OLED texts drawn by `display_error`, and the sensor power pin. -/
structure PicoState where
  current_temperature : String
  display : List String
  sensor_power : Bool
deriving DecidableEq, Repr

/-- Sensor-bus outcomes for one measurement: whether `scan()` finds a device,
and the result of `convert_temp`/`read_temp` (tenths of a degree, or a raised
exception). -/
structure PicoEnv where
  roms : Bool
  read : Except Unit Int

/-- `display_error` (lines 45-49). -/
def display_error (message : String) (s : PicoState) : PicoState :=
  { s with display := message :: s.display }

/-- `'Wine T = {:.1f} C'.format(temp)` with `temp` in tenths of a degree. -/
def fmtPicoTemp (t : Int) : String :=
  "Wine T = " ++ Macerator.fmtTemp t ++ " C"

/-- `measure_temperature` (lines 118-135): power the sensor, scan; on a read
exception show "Sensor Error" and store the sentinel; with no device store
"No sensor"; always power down. It is a total function: it never raises. -/
def measure_temperature (env : PicoEnv) (s : PicoState) : PicoState :=
  let s := { s with sensor_power := true }
  if env.roms then
    match env.read with
    | .ok temp =>
      { s with current_temperature := fmtPicoTemp temp, sensor_power := false }
    | .error _ =>
      let s := display_error "Sensor Error" s
      { s with current_temperature := "Sensor Error", sensor_power := false }
  else
    { s with current_temperature := "No sensor", sensor_power := false }

/-- `format_seconds_to_hms` (lines 52-57): Python `//` floors and `{:02}`
zero-pads every component, including the hours. -/
def format_seconds_to_hms (seconds : Int) : String :=
  Macerator.pad2 (seconds.fdiv 3600) ++ ":"
    ++ Macerator.pad2 ((seconds.emod 3600).fdiv 60) ++ ":"
    ++ Macerator.pad2 (seconds.emod 60)

/-- The label and countdown texts drawn on display row 24 by `update_display`
(lines 106-111): whether the relay is active (`Mixing:`) or idle (`Next:`),
the countdown is rendered with `format_seconds_to_hms`, i.e. always as
`HH:MM:SS` with the hours zero-padded too. -/
def update_display_row24 (relay_active : Bool) (relay_next_activation : Int) :
    String × String :=
  if relay_active then ("Mixing:", format_seconds_to_hms relay_next_activation)
  else ("Next:", format_seconds_to_hms relay_next_activation)

end Pico

namespace Macerator

/-! ### Concrete fixtures used by witnesses and counterexamples -/

/-- A macerator state in which only the temperature update is due at time 0. -/
def sTempDue : State :=
  { relay := false, relay_end_time := none, next_temp_update := 0,
    next_relay_activation := 999999, next_second_update := 999999,
    end_maceration_time := 500000, lcd := [], sends := [], logs := [], slept := [] }

/-- A state in which nothing is due at time 0. -/
def sNothingDue : State :=
  { relay := false, relay_end_time := none, next_temp_update := 10,
    next_relay_activation := 20, next_second_update := 30,
    end_maceration_time := 1000, lcd := [], sends := [], logs := [], slept := [] }

/-- A state in which everything is due at time 0 (the startup shape). -/
def sAllDue : State :=
  { relay := false, relay_end_time := none, next_temp_update := 0,
    next_relay_activation := 0, next_second_update := 0,
    end_maceration_time := 0, lcd := [], sends := [], logs := [], slept := [] }

/-- A state with the relay on mid-mixing (deadline at 120) and nothing else
due at time 0. -/
def sActive : State :=
  { relay := true, relay_end_time := some 120, next_temp_update := 999999,
    next_relay_activation := 999999, next_second_update := 999999,
    end_maceration_time := 500000, lcd := [], sends := [], logs := [], slept := [] }

/-- `sNothingDue` after one iteration at time 0: only the sleep is logged
(`min (min 10 30) 20 - 0 = 10`). -/
def sNothingDueAfter : State := { sNothingDue with slept := [10] }

/-- An environment where every peripheral call succeeds. -/
def envOk : Env := ⟨.ok 205, true, true⟩

/-- An environment where the sensor read raises. -/
def envSensorFail : Env := ⟨.error (), true, true⟩

/-- An environment where the Azure send raises. -/
def envSendFail : Env := ⟨.ok 205, false, true⟩

/-- A clock whose third read (index 2, the one consumed by
`set_next_temp_update_time`) is 5 seconds later than the others. -/
def sigReread : Nat → Time := fun i => if i = 2 then 5 else 0

/-! ### C9 (amended) -/

/-- C9 counterexample: in the pico driver the mixing countdown is NOT
rendered `M:SS` and the hours are NOT left unpadded: `update_display`
(lines 106-111) formats both relay states with `format_seconds_to_hms`
(lines 52-57), so 125 seconds remaining while mixing renders `00:02:05`,
not `2:05`. -/
theorem pico_active_countdown_cex :
    (Pico.update_display_row24 true 125).2 = "00:02:05" ∧
    (Pico.update_display_row24 true 125).2 ≠ "2:05" ∧
    Pico.format_seconds_to_hms 125 = "00:02:05" := by
  refine ⟨by decide, by decide, by decide⟩

/-- C9 amended: the two drivers format the countdown differently.
`maceration-driver.py` renders it as `M:SS` while the relay is active and
`H:MM:SS` while idle, zero-padding minutes and seconds but not hours:
125 seconds while mixing renders `2:05` and 3725 seconds while idle renders
`1:02:05` (each prefixed by the row label and left-justified to the
16-column row). The pico driver instead renders both states as `HH:MM:SS`
with the hours zero-padded too: `00:02:05` while mixing with 125 seconds
remaining and `01:02:05` while idle with 3725 seconds remaining. -/
theorem countdown_format_examples :
    display_time_on_lcd 125 true = ljust ("Blend: " ++ "2:05") 16 ∧
    display_time_on_lcd 3725 false = ljust ("Next: " ++ "1:02:05") 16 ∧
    ljust ("Blend: " ++ "2:05") 16 = "Blend: 2:05     " ∧
    ljust ("Next: " ++ "1:02:05") 16 = "Next: 1:02:05   " ∧
    Pico.update_display_row24 true 125 = ("Mixing:", "00:02:05") ∧
    Pico.update_display_row24 false 3725 = ("Next:", "01:02:05") := by
  refine ⟨by decide, by decide, by decide, by decide, by decide, by decide⟩

/-! ### C5 -/

/-- C5: `update_temperature` sets `next_temp_update` to the clock value read
at its entry (the time the read starts) plus `TEMP_UPDATE_INTERVAL`, before
the sensor read happens: the resulting deadline is the same whether the
sensor read succeeds or raises, and does not depend on any later clock value
(a slow read changes nothing). -/
theorem next_temp_update_scheduled_at_read_start
    (σ : Nat → Time) (k : Nat) (env : Env) (s : State) :
    (resState (update_temperature σ k env s)).next_temp_update
      = σ k + TEMP_UPDATE_INTERVAL := by
  unfold update_temperature set_next_temp_update_time get_temperature_from_sensor
    display_info_on_lcd display_azure_connection_status send_message writeLcd
  cases h : env.sensor with
  | error e => simp [resState]
  | ok t =>
    cases hs : env.send_ok <;> simp [hs, resState]

/-! ### C3 -/

/-- C3: divergence between the two drivers on a failed temperature read.
The pico driver's `measure_temperature` stores the `"Sensor Error"` sentinel,
draws the error on the display and returns normally (it is a total function),
exactly as the claim demands; but the Pi driver's `update_temperature` calls
the sensor unguarded, so the same failure raises `sensorError` out of the
action and out of the loop body, after having already rescheduled
`next_temp_update`. -/
theorem sensor_failure_divergence :
    Pico.measure_temperature ⟨true, .error ()⟩ ⟨"Waiting for temp", [], false⟩
      = { current_temperature := "Sensor Error", display := ["Sensor Error"],
          sensor_power := false } ∧
    errKind (update_temperature (fun _ => 0) 0 envSensorFail sTempDue)
      = some PyError.sensorError ∧
    errKind (iterBody (fun _ => 0) 0 envSensorFail sTempDue)
      = some PyError.sensorError ∧
    (resState (update_temperature (fun _ => 0) 0 envSensorFail sTempDue)).next_temp_update
      = TEMP_UPDATE_INTERVAL := by
  refine ⟨rfl, rfl, rfl, rfl⟩

/-! ### C4 -/

/-- C4 counterexample: with the sensor succeeding and the Azure send failing,
the send error escapes `update_temperature` (and hence the whole loop body):
`send_message` logs the failure and then re-raises instead of swallowing it. -/
theorem telemetry_send_failure_propagates_cex :
    errKind (update_temperature (fun _ => 0) 0 envSendFail sTempDue)
      = some PyError.sendError ∧
    (resState (update_temperature (fun _ => 0) 0 envSendFail sTempDue)).logs
      = ["Failed to send message to Azure IoT Hub"] ∧
    errKind (iterBody (fun _ => 0) 0 envSendFail sTempDue)
      = some PyError.sendError := by
  refine ⟨rfl, rfl, rfl⟩

/-- C4 amended: a telemetry-send failure is logged and RE-RAISED: the
exception propagates out of `update_temperature` with the failure message
logged, the payload attempted exactly once (prepended once to the send log,
with no queueing or retry state), and the temperature deadline already
rescheduled. -/
theorem telemetry_send_failure_logged_and_reraised
    (σ : Nat → Time) (k : Nat) (s : State) (v : Int) (conn : Bool) :
    errKind (update_temperature σ k ⟨.ok v, false, conn⟩ s)
      = some PyError.sendError ∧
    (resState (update_temperature σ k ⟨.ok v, false, conn⟩ s)).logs
      = "Failed to send message to Azure IoT Hub" :: s.logs ∧
    (resState (update_temperature σ k ⟨.ok v, false, conn⟩ s)).sends
      = jsonTemp v :: s.sends ∧
    (resState (update_temperature σ k ⟨.ok v, false, conn⟩ s)).next_temp_update
      = σ k + TEMP_UPDATE_INTERVAL := by
  unfold update_temperature set_next_temp_update_time get_temperature_from_sensor
    display_info_on_lcd display_azure_connection_status send_message writeLcd
  simp [errKind, resState]

/-! ### C1 counterexample -/

/-- C1 counterexample: the relay is NOT active for exactly `RELAY_DURATION`
for every sequence of simulated now advances. Starting from the
all-deadlines-at-0 state, the step at now = 0 activates the relay with
`relay_end_time = RELAY_DURATION = 120`, yet a next simulated now of 1000
still fires the deactivation, so that cycle stays active for
1000 - 0 ≠ RELAY_DURATION seconds. -/
theorem relay_active_phase_overshoot_cex :
    relay_transition 0 sAllDue = some true ∧
    (resState (relay_step 0 sAllDue)).relay_end_time = some RELAY_DURATION ∧
    relay_transition 1000 (resState (relay_step 0 sAllDue)) = some false ∧
    ((1000 : Time) - 0 ≠ RELAY_DURATION) := by
  refine ⟨rfl, rfl, rfl, by decide⟩

/-! ### C6 counterexample -/

/-- C6 counterexample: one loop iteration does not read the clock exactly
once, and the deadline recomputation does not use the snapshot. With a clock
whose while-condition read and snapshot read both return 0 but whose third
read returns 5, the iteration consumes 4 clock reads and leaves
`next_temp_update = 905`, while rescheduling from the single snapshot would
give 900. -/
theorem iteration_rereads_clock_cex :
    (finalState (runLoop sigReread (fun _ => envOk) 1 0 0 sTempDue)).next_temp_update
      = 905 ∧
    ((905 : Time) ≠ sigReread 1 + TEMP_UPDATE_INTERVAL) ∧
    finalIndex (runLoop sigReread (fun _ => envOk) 1 0 0 sTempDue) = some 4 ∧
    (4 ≠ 0 + 1) := by
  refine ⟨rfl, by decide, rfl, by decide⟩

end Macerator

namespace Macerator

/-! ### Relay state-machine helper lemmas -/

/-- Exhaustive case analysis of the relay `if/elif` (lines 160-163) at one
simulated `now`. -/
theorem relay_step_cases (now : Time) (s : State) :
    (s.relay = true ∧ s.relay_end_time = none ∧
        relay_step now s = .error (.typeError, s) ∧ relay_transition now s = none) ∨
    (∃ t, s.relay = true ∧ s.relay_end_time = some t ∧ t ≤ now ∧
        relay_step now s = .ok (deactivate_relay (fun _ => now) 0 s) ∧
        relay_transition now s = some false) ∨
    (∃ t, s.relay = true ∧ s.relay_end_time = some t ∧ ¬ t ≤ now ∧
        relay_step now s = .ok (s, 0) ∧ relay_transition now s = none) ∨
    (s.relay = false ∧ s.next_relay_activation ≤ now ∧
        relay_step now s = .ok (activate_relay (fun _ => now) 0 s) ∧
        relay_transition now s = some true) ∨
    (s.relay = false ∧ ¬ s.next_relay_activation ≤ now ∧
        relay_step now s = .ok (s, 0) ∧ relay_transition now s = none) := by
  by_cases hr : s.relay = true
  · cases hend : s.relay_end_time with
    | none =>
      exact Or.inl ⟨hr, rfl, by simp [relay_step, relay_phase, hr, hend],
        by simp [relay_transition, hr, hend]⟩
    | some t =>
      by_cases hd : t ≤ now
      · exact Or.inr (Or.inl ⟨t, hr, rfl, hd,
          by simp [relay_step, relay_phase, hr, hend, hd],
          by simp [relay_transition, hr, hend, hd]⟩)
      · exact Or.inr (Or.inr (Or.inl ⟨t, hr, rfl, hd,
          by simp [relay_step, relay_phase, hr, hend, hd],
          by simp [relay_transition, hr, hend, hd]⟩))
  · have hr' : s.relay = false := by simpa using hr
    by_cases hd : s.next_relay_activation ≤ now
    · exact Or.inr (Or.inr (Or.inr (Or.inl ⟨hr', hd,
        by simp [relay_step, relay_phase, hr', hd],
        by simp [relay_transition, hr', hd]⟩)))
    · exact Or.inr (Or.inr (Or.inr (Or.inr ⟨hr', hd,
        by simp [relay_step, relay_phase, hr', hd],
        by simp [relay_transition, hr', hd]⟩)))

theorem deactivate_relay_post (σ : Nat → Time) (k : Nat) (s : State) :
    (deactivate_relay σ k s).1.relay = false ∧
    (deactivate_relay σ k s).1.next_relay_activation = σ k + MIXTURE_INTERVAL ∧
    (deactivate_relay σ k s).1.relay_end_time = s.relay_end_time :=
  ⟨rfl, rfl, rfl⟩

theorem activate_relay_post (σ : Nat → Time) (k : Nat) (s : State) :
    (activate_relay σ k s).1.relay = true ∧
    (activate_relay σ k s).1.relay_end_time = some (σ k + RELAY_DURATION) ∧
    (activate_relay σ k s).1.next_relay_activation = s.next_relay_activation :=
  ⟨rfl, rfl, rfl⟩

/-- The first transition fired along a trace always leaves the current relay
state: an activation (`true`) can only come first when the relay is off. -/
theorem relayEvents_head (ts : List Time) (s : State) :
    ∀ e, (relayEvents ts s).head? = some e → e = !s.relay := by
  induction ts generalizing s with
  | nil => intro e he; simp [relayEvents] at he
  | cons now rest ih =>
    intro e he
    rcases relay_step_cases now s with ⟨hr, hend, hstep, htr⟩ |
      ⟨t, hr, hend, hd, hstep, htr⟩ | ⟨t, hr, hend, hd, hstep, htr⟩ |
      ⟨hr, hd, hstep, htr⟩ | ⟨hr, hd, hstep, htr⟩
    · simp [relayEvents, hstep] at he
    · simp only [relayEvents, hstep, htr, List.head?_cons, Option.some.injEq] at he
      rw [← he, hr]
      rfl
    · simp only [relayEvents, hstep, htr] at he
      exact ih s e he
    · simp only [relayEvents, hstep, htr, List.head?_cons, Option.some.injEq] at he
      rw [← he, hr]
      rfl
    · simp only [relayEvents, hstep, htr] at he
      exact ih s e he

/-- Along any trace of simulated `now` values, the fired relay transitions
strictly alternate: no two consecutive activations, no two consecutive
deactivations. -/
theorem relayEvents_alternate (ts : List Time) (s : State) :
    List.Chain' (fun a b => a ≠ b) (relayEvents ts s) := by
  induction ts generalizing s with
  | nil => simp [relayEvents]
  | cons now rest ih =>
    rcases relay_step_cases now s with ⟨hr, hend, hstep, htr⟩ |
      ⟨t, hr, hend, hd, hstep, htr⟩ | ⟨t, hr, hend, hd, hstep, htr⟩ |
      ⟨hr, hd, hstep, htr⟩ | ⟨hr, hd, hstep, htr⟩
    · simp [relayEvents, hstep]
    · simp only [relayEvents, hstep, htr]
      rw [List.chain'_cons']
      refine ⟨?_, ih _⟩
      intro b hb
      have hb' := relayEvents_head rest _ b hb
      rw [hb', (deactivate_relay_post (fun _ => now) 0 s).1]
      simp
    · simp only [relayEvents, hstep, htr]
      exact ih s
    · simp only [relayEvents, hstep, htr]
      rw [List.chain'_cons']
      refine ⟨?_, ih _⟩
      intro b hb
      have hb' := relayEvents_head rest _ b hb
      rw [hb', (activate_relay_post (fun _ => now) 0 s).1]
      simp
    · simp only [relayEvents, hstep, htr]
      exact ih s

theorem relay_transition_true_iff (now : Time) (s : State) :
    relay_transition now s = some true ↔
      s.relay = false ∧ s.next_relay_activation ≤ now := by
  unfold relay_transition
  by_cases hr : s.relay = true
  · cases hend : s.relay_end_time with
    | none => simp [hr, hend]
    | some t =>
      by_cases hd : t ≤ now <;> simp [hr, hend, hd]
  · have hr' : s.relay = false := by simpa using hr
    by_cases hd : s.next_relay_activation ≤ now <;> simp [hr', hd]

theorem relay_transition_false_iff (now : Time) (s : State) :
    relay_transition now s = some false ↔
      s.relay = true ∧ ∃ t, s.relay_end_time = some t ∧ t ≤ now := by
  unfold relay_transition
  by_cases hr : s.relay = true
  · cases hend : s.relay_end_time with
    | none => simp [hr, hend]
    | some t =>
      by_cases hd : t ≤ now <;> simp [hr, hend, hd]
  · have hr' : s.relay = false := by simpa using hr
    by_cases hd : s.next_relay_activation ≤ now <;> simp [hr', hd]

/-! ### C1 (amended) -/

/-- C1 amended: the relay state machine of lines 160-163.
1. From Idle, when the snapshot `now` has reached `next_relay_activation`,
   the relay turns on and `relay_end_time` is set to the clock value read
   inside `set_relay_end_time` plus `RELAY_DURATION`.
2. From Active, when `now` has reached the set `relay_end_time`, the relay
   turns off and `next_relay_activation` is set to the re-read clock value
   plus `MIXTURE_INTERVAL`.
3./4. At most one transition direction can fire per iteration: an activation
   requires the relay off, a deactivation requires it on.
5. For every sequence of simulated now advances, the fired transitions
   strictly alternate: two consecutive activations never occur.
6./7. Provided a wake does not overshoot the live deadline (which the
   computed-minimum sleep of line 169 arranges), a transition fires exactly
   at its deadline, so the Active phase lasts exactly `RELAY_DURATION` and
   the Idle phase exactly `MIXTURE_INTERVAL`; the counterexample shows the
   "exactly" fails for sequences that wake late. -/
theorem relay_alternation_and_exact_durations :
    (∀ (σ : Nat → Time) (k : Nat) (ct : Time) (s : State),
        s.relay = false → s.next_relay_activation ≤ ct →
        relay_phase σ k ct s = .ok (activate_relay σ k s) ∧
        (activate_relay σ k s).1.relay = true ∧
        (activate_relay σ k s).1.relay_end_time = some (σ k + RELAY_DURATION)) ∧
    (∀ (σ : Nat → Time) (k : Nat) (ct t : Time) (s : State),
        s.relay = true → s.relay_end_time = some t → t ≤ ct →
        relay_phase σ k ct s = .ok (deactivate_relay σ k s) ∧
        (deactivate_relay σ k s).1.relay = false ∧
        (deactivate_relay σ k s).1.next_relay_activation = σ k + MIXTURE_INTERVAL) ∧
    (∀ (now : Time) (s : State),
        relay_transition now s = some true → s.relay = false) ∧
    (∀ (now : Time) (s : State),
        relay_transition now s = some false → s.relay = true) ∧
    (∀ (ts : List Time) (s : State),
        List.Chain' (fun a b => a ≠ b) (relayEvents ts s)) ∧
    (∀ (now t : Time) (s : State), s.relay_end_time = some t →
        relay_transition now s = some false → now ≤ t → now = t) ∧
    (∀ (now : Time) (s : State),
        relay_transition now s = some true → now ≤ s.next_relay_activation →
        now = s.next_relay_activation) := by
  refine ⟨?_, ?_, ?_, ?_, relayEvents_alternate, ?_, ?_⟩
  · intro σ k ct s hr hd
    exact ⟨by simp [relay_phase, hr, hd], rfl, rfl⟩
  · intro σ k ct t s hr hend hd
    exact ⟨by simp [relay_phase, hr, hend, hd], rfl, rfl⟩
  · intro now s h
    exact ((relay_transition_true_iff now s).mp h).1
  · intro now s h
    exact ((relay_transition_false_iff now s).mp h).1
  · intro now t s hend h hle
    obtain ⟨-, t', hend', hd⟩ := (relay_transition_false_iff now s).mp h
    rw [hend] at hend'
    cases hend'
    exact le_antisymm hle hd
  · intro now s h hle
    exact le_antisymm hle ((relay_transition_true_iff now s).mp h).2

/-- C1 amended, witness: the activation clause at the all-due startup state
and the exact-deadline clause for a deactivation at `now = 120` from
`sActive`. -/
theorem relay_alternation_witness :
    (relay_phase (fun _ => 0) 0 0 sAllDue = .ok (activate_relay (fun _ => 0) 0 sAllDue) ∧
     (activate_relay (fun _ => 0) 0 sAllDue).1.relay = true ∧
     (activate_relay (fun _ => 0) 0 sAllDue).1.relay_end_time
        = some ((fun _ => (0 : Time)) 0 + RELAY_DURATION)) ∧
    ((120 : Time) = 120) ∧
    List.Chain' (fun a b => a ≠ b) (relayEvents [0, 1000] sAllDue) :=
  ⟨relay_alternation_and_exact_durations.1 (fun _ => 0) 0 0 sAllDue rfl (by decide),
   relay_alternation_and_exact_durations.2.2.2.2.2.1 120 120 sActive rfl (by decide)
     (by decide),
   relay_alternation_and_exact_durations.2.2.2.2.1 [0, 1000] sAllDue⟩

end Macerator

namespace Macerator

/-! ### Loop-body helper lemmas -/

theorem resState_ok {x : Except (PyError × State) (State × Nat)} {s' : State}
    {k' : Nat} (h : x = .ok (s', k')) : resState x = s' := by
  rw [h]; rfl

theorem bindE_ok {x : Except (PyError × State) (State × Nat)}
    {f : State → Nat → Except (PyError × State) (State × Nat)}
    {s' : State} {k' : Nat} (h : bindE x f = .ok (s', k')) :
    ∃ s1 k1, x = .ok (s1, k1) ∧ f s1 k1 = .ok (s', k') := by
  cases x with
  | error e => simp [bindE] at h
  | ok p =>
    obtain ⟨s1, k1⟩ := p
    exact ⟨s1, k1, rfl, by simpa [bindE] using h⟩

/-- `update_temperature` only touches `next_temp_update`, the LCD, the send
log and the error log — relay state, the other deadlines and the sleep log
are unchanged, also when it raises. -/
theorem update_temperature_fields (σ : Nat → Time) (k : Nat) (env : Env) (s : State) :
    (resState (update_temperature σ k env s)).relay = s.relay ∧
    (resState (update_temperature σ k env s)).relay_end_time = s.relay_end_time ∧
    (resState (update_temperature σ k env s)).next_relay_activation
      = s.next_relay_activation ∧
    (resState (update_temperature σ k env s)).next_second_update
      = s.next_second_update ∧
    (resState (update_temperature σ k env s)).end_maceration_time
      = s.end_maceration_time ∧
    (resState (update_temperature σ k env s)).slept = s.slept := by
  unfold update_temperature set_next_temp_update_time get_temperature_from_sensor
    display_info_on_lcd display_azure_connection_status send_message writeLcd
  cases h : env.sensor with
  | error e => simp [resState]
  | ok t => cases hs : env.send_ok <;> simp [hs, resState]

theorem temp_phase_fields (σ : Nat → Time) (k : Nat) (env : Env) (ct : Time)
    (s : State) :
    (resState (temp_phase σ k env ct s)).relay = s.relay ∧
    (resState (temp_phase σ k env ct s)).relay_end_time = s.relay_end_time ∧
    (resState (temp_phase σ k env ct s)).next_relay_activation
      = s.next_relay_activation ∧
    (resState (temp_phase σ k env ct s)).next_second_update = s.next_second_update ∧
    (resState (temp_phase σ k env ct s)).end_maceration_time
      = s.end_maceration_time ∧
    (resState (temp_phase σ k env ct s)).slept = s.slept := by
  unfold temp_phase
  by_cases hd : s.next_temp_update ≤ ct
  · rw [if_pos hd]
    exact update_temperature_fields σ k env s
  · rw [if_neg hd]
    exact ⟨rfl, rfl, rfl, rfl, rfl, rfl⟩

/-- The relay phase only touches the relay output, `relay_end_time`,
`next_relay_activation` and the LCD. -/
theorem relay_phase_fields (σ : Nat → Time) (k : Nat) (ct : Time) (s : State) :
    (resState (relay_phase σ k ct s)).next_temp_update = s.next_temp_update ∧
    (resState (relay_phase σ k ct s)).next_second_update = s.next_second_update ∧
    (resState (relay_phase σ k ct s)).end_maceration_time = s.end_maceration_time ∧
    (resState (relay_phase σ k ct s)).slept = s.slept := by
  unfold relay_phase deactivate_relay set_next_relay_activation_time activate_relay
    set_relay_end_time display_blending_started_on_lcd writeLcd
  by_cases hr : s.relay = true
  · cases hend : s.relay_end_time with
    | none => simp [hr, hend, resState]
    | some t => by_cases hd : t ≤ ct <;> simp [hr, hend, hd, resState]
  · have hr' : s.relay = false := by simpa using hr
    by_cases hd : s.next_relay_activation ≤ ct <;> simp [hr', hd, resState]

/-- The display phase only touches `next_second_update` and the LCD. -/
theorem display_phase_fields (σ : Nat → Time) (k : Nat) (ct : Time) (s : State) :
    (resState (display_phase σ k ct s)).relay = s.relay ∧
    (resState (display_phase σ k ct s)).relay_end_time = s.relay_end_time ∧
    (resState (display_phase σ k ct s)).next_relay_activation
      = s.next_relay_activation ∧
    (resState (display_phase σ k ct s)).next_temp_update = s.next_temp_update ∧
    (resState (display_phase σ k ct s)).end_maceration_time
      = s.end_maceration_time ∧
    (resState (display_phase σ k ct s)).slept = s.slept := by
  unfold display_phase update_relay_timer writeLcd
  by_cases hd : s.next_second_update ≤ ct
  · rw [if_pos hd]
    by_cases hr : s.relay = true
    · cases hend : s.relay_end_time with
      | none => simp [hr, hend, resState]
      | some t => simp [hr, hend, resState]
    · have hr' : s.relay = false := by simpa using hr
      simp [hr', resState]
  · rw [if_neg hd]
    exact ⟨rfl, rfl, rfl, rfl, rfl, rfl⟩

/-- Inversion for the sleep computation of lines 169-170. -/
theorem sleep_step_ok (ct : Time) (s : State) (k : Nat) (s' : State) (k' : Nat)
    (h : sleep_step ct s k = .ok (s', k')) :
    ∃ t, relay_relevant_deadline s = some t ∧
      s' = { s with slept := max 0 (min (min s.next_temp_update s.next_second_update) t - ct) :: s.slept } ∧
      k' = k := by
  unfold sleep_step next_event_time at h
  cases hrel : relay_relevant_deadline s with
  | none => rw [hrel] at h; simp at h
  | some t =>
    rw [hrel] at h
    simp only [Except.ok.injEq, Prod.mk.injEq] at h
    exact ⟨t, rfl, h.1.symm, h.2.symm⟩

theorem relay_relevant_deadline_slept (s : State) (l : List Time) :
    relay_relevant_deadline { s with slept := l } = relay_relevant_deadline s := rfl

/-! ### C2 -/

/-- C2: whenever a loop iteration completes normally, the duration passed to
`time.sleep` is exactly `max 0` of (the minimum of the three live deadlines
of the post-iteration state — `next_temp_update`, `next_second_update`, and
the relay-relevant deadline selected by the current relay state — minus the
iteration's snapshot time), and it is never negative. -/
theorem next_wake_min_and_sleep_clamped (σ : Nat → Time) (k : Nat) (env : Env)
    (s s' : State) (k' : Nat) (h : iterBody σ k env s = .ok (s', k')) :
    (relay_relevant_deadline s').isSome = true ∧
    s'.slept = max 0 (min (min s'.next_temp_update s'.next_second_update)
        ((relay_relevant_deadline s').getD 0) - σ k) :: s.slept ∧
    0 ≤ max 0 (min (min s'.next_temp_update s'.next_second_update)
        ((relay_relevant_deadline s').getD 0) - σ k) := by
  unfold iterBody at h
  obtain ⟨s1, k1, h1, h⟩ := bindE_ok h
  obtain ⟨s2, k2, h2, h⟩ := bindE_ok h
  obtain ⟨s3, k3, h3, h⟩ := bindE_ok h
  obtain ⟨t, hrel, hs', -⟩ := sleep_step_ok (σ k) s3 k3 s' k' h
  have hslept1 : s1.slept = s.slept := by
    have := (temp_phase_fields σ (k+1) env (σ k) s).2.2.2.2.2
    rwa [resState_ok h1] at this
  have hslept2 : s2.slept = s1.slept := by
    have := (relay_phase_fields σ k1 (σ k) s1).2.2.2
    rwa [resState_ok h2] at this
  have hslept3 : s3.slept = s2.slept := by
    have := (display_phase_fields σ k2 (σ k) s2).2.2.2.2.2
    rwa [resState_ok h3] at this
  subst hs'
  refine ⟨by simp [relay_relevant_deadline_slept, hrel], ?_, le_max_left 0 _⟩
  simp only [relay_relevant_deadline_slept, hrel, Option.getD_some]
  rw [hslept3, hslept2, hslept1]

/-- C2 witness: the no-action iteration at time 0 from `sNothingDue` sleeps
for `min (min 10 30) 20 - 0 = 10` seconds. -/
theorem next_wake_min_witness :
    iterBody (fun _ => 0) 0 envOk sNothingDue = .ok (sNothingDueAfter, 1) ∧
    (relay_relevant_deadline sNothingDueAfter).isSome = true ∧
    sNothingDueAfter.slept
      = max 0 (min (min sNothingDueAfter.next_temp_update
          sNothingDueAfter.next_second_update)
          ((relay_relevant_deadline sNothingDueAfter).getD 0) - (0 : Time))
        :: sNothingDue.slept ∧
    0 ≤ max 0 (min (min sNothingDueAfter.next_temp_update
          sNothingDueAfter.next_second_update)
          ((relay_relevant_deadline sNothingDueAfter).getD 0) - (0 : Time)) := by
  have h : iterBody (fun _ => 0) 0 envOk sNothingDue = .ok (sNothingDueAfter, 1) := by
    rfl
  have := next_wake_min_and_sleep_clamped (fun _ => 0) 0 envOk sNothingDue
    sNothingDueAfter 1 h
  exact ⟨h, this.1, this.2.1, this.2.2⟩

end Macerator

namespace Macerator

/-! ### Safety lemmas for the None-valued `relay_end_time` -/

theorem RelayEndInv_deactivate (σ : Nat → Time) (k : Nat) (s : State) :
    RelayEndInv (deactivate_relay σ k s).1 := by
  intro h
  rw [(deactivate_relay_post σ k s).1] at h
  simp at h

theorem RelayEndInv_activate (σ : Nat → Time) (k : Nat) (s : State) :
    RelayEndInv (activate_relay σ k s).1 := by
  intro h
  rw [(activate_relay_post σ k s).2.1]
  simp

theorem update_temperature_no_typeError (σ : Nat → Time) (k : Nat) (env : Env)
    (s : State) :
    errKind (update_temperature σ k env s) ≠ some PyError.typeError := by
  unfold update_temperature set_next_temp_update_time get_temperature_from_sensor
    display_info_on_lcd display_azure_connection_status send_message writeLcd
  cases h : env.sensor with
  | error e => simp [errKind]
  | ok t => cases hs : env.send_ok <;> simp [hs, errKind]

theorem temp_phase_no_typeError (σ : Nat → Time) (k : Nat) (env : Env) (ct : Time)
    (s : State) :
    errKind (temp_phase σ k env ct s) ≠ some PyError.typeError := by
  unfold temp_phase
  by_cases hd : s.next_temp_update ≤ ct
  · rw [if_pos hd]
    exact update_temperature_no_typeError σ k env s
  · rw [if_neg hd]
    simp [errKind]

theorem temp_phase_safety (σ : Nat → Time) (k : Nat) (env : Env) (ct : Time)
    (s : State) (hInv : RelayEndInv s) :
    errKind (temp_phase σ k env ct s) ≠ some PyError.typeError ∧
    RelayEndInv (resState (temp_phase σ k env ct s)) ∧
    (s.relay_end_time ≠ none →
      (resState (temp_phase σ k env ct s)).relay_end_time ≠ none) := by
  have hf := temp_phase_fields σ k env ct s
  refine ⟨temp_phase_no_typeError σ k env ct s, ?_, ?_⟩
  · intro h
    rw [hf.1] at h
    rw [hf.2.1]
    exact hInv h
  · intro h
    rw [hf.2.1]
    exact h

theorem relay_phase_safety (σ : Nat → Time) (k : Nat) (ct : Time) (s : State)
    (hInv : RelayEndInv s) :
    errKind (relay_phase σ k ct s) ≠ some PyError.typeError ∧
    RelayEndInv (resState (relay_phase σ k ct s)) ∧
    (s.relay_end_time ≠ none →
      (resState (relay_phase σ k ct s)).relay_end_time ≠ none) := by
  by_cases hr : s.relay = true
  · cases hend : s.relay_end_time with
    | none => exact absurd hend (hInv hr)
    | some t =>
      by_cases hd : t ≤ ct
      · have hstep : relay_phase σ k ct s = .ok (deactivate_relay σ k s) := by
          simp [relay_phase, hr, hend, hd]
        rw [hstep]
        refine ⟨by simp [errKind], ?_, fun _ => ?_⟩
        · simpa [resState] using RelayEndInv_deactivate σ k s
        · simp [resState, (deactivate_relay_post σ k s).2.2, hend]
      · have hstep : relay_phase σ k ct s = .ok (s, k) := by
          simp [relay_phase, hr, hend, hd]
        rw [hstep]
        exact ⟨by simp [errKind], by simpa [resState] using hInv,
          fun _ => by simp [resState, hend]⟩
  · have hr' : s.relay = false := by simpa using hr
    by_cases hd : s.next_relay_activation ≤ ct
    · have hstep : relay_phase σ k ct s = .ok (activate_relay σ k s) := by
        simp [relay_phase, hr', hd]
      rw [hstep]
      refine ⟨by simp [errKind], ?_, fun _ => ?_⟩
      · simpa [resState] using RelayEndInv_activate σ k s
      · simp [resState, (activate_relay_post σ k s).2.1]
    · have hstep : relay_phase σ k ct s = .ok (s, k) := by
        simp [relay_phase, hr', hd]
      rw [hstep]
      exact ⟨by simp [errKind], by simpa [resState] using hInv,
        fun h => by simpa [resState] using h⟩

theorem display_phase_safety (σ : Nat → Time) (k : Nat) (ct : Time) (s : State)
    (hInv : RelayEndInv s) :
    errKind (display_phase σ k ct s) ≠ some PyError.typeError ∧
    RelayEndInv (resState (display_phase σ k ct s)) ∧
    (s.relay_end_time ≠ none →
      (resState (display_phase σ k ct s)).relay_end_time ≠ none) := by
  have hf := display_phase_fields σ k ct s
  refine ⟨?_, ?_, ?_⟩
  · by_cases hd : s.next_second_update ≤ ct
    · by_cases hr : s.relay = true
      · cases hend : s.relay_end_time with
        | none => exact absurd hend (hInv hr)
        | some t =>
          simp [display_phase, update_relay_timer, hd, hr, hend, errKind]
      · have hr' : s.relay = false := by simpa using hr
        simp [display_phase, update_relay_timer, hd, hr', errKind]
    · simp [display_phase, hd, errKind]
  · intro h
    rw [hf.1] at h
    rw [hf.2.1]
    exact hInv h
  · intro h
    rw [hf.2.1]
    exact h

theorem sleep_step_safety (ct : Time) (s : State) (k : Nat) (hInv : RelayEndInv s) :
    errKind (sleep_step ct s k) ≠ some PyError.typeError ∧
    RelayEndInv (resState (sleep_step ct s k)) ∧
    (s.relay_end_time ≠ none →
      (resState (sleep_step ct s k)).relay_end_time ≠ none) := by
  have hrel : ∃ t, relay_relevant_deadline s = some t := by
    by_cases hr : s.relay = true
    · cases hend : s.relay_end_time with
      | none => exact absurd hend (hInv hr)
      | some t => exact ⟨t, by simp [relay_relevant_deadline, hr, hend]⟩
    · have hr' : s.relay = false := by simpa using hr
      exact ⟨s.next_relay_activation, by simp [relay_relevant_deadline, hr']⟩
  obtain ⟨t, ht⟩ := hrel
  have hstep : sleep_step ct s k
      = .ok ({ s with slept := max 0 (min (min s.next_temp_update s.next_second_update) t - ct) :: s.slept }, k) := by
    simp [sleep_step, next_event_time, ht]
  rw [hstep]
  exact ⟨by simp [errKind], fun h => hInv h, fun h => h⟩

/-- Composing the safety triple through the sequencing of the loop phases. -/
theorem bindE_safety {x : Except (PyError × State) (State × Nat)}
    {f : State → Nat → Except (PyError × State) (State × Nat)} {s : State}
    (hx1 : errKind x ≠ some PyError.typeError)
    (hx2 : RelayEndInv (resState x))
    (hx3 : s.relay_end_time ≠ none → (resState x).relay_end_time ≠ none)
    (hf : ∀ s1 k1, x = .ok (s1, k1) → RelayEndInv s1 →
      errKind (f s1 k1) ≠ some PyError.typeError ∧
      RelayEndInv (resState (f s1 k1)) ∧
      (s1.relay_end_time ≠ none → (resState (f s1 k1)).relay_end_time ≠ none)) :
    errKind (bindE x f) ≠ some PyError.typeError ∧
    RelayEndInv (resState (bindE x f)) ∧
    (s.relay_end_time ≠ none → (resState (bindE x f)).relay_end_time ≠ none) := by
  cases x with
  | error e => exact ⟨hx1, hx2, hx3⟩
  | ok p =>
    obtain ⟨s1, k1⟩ := p
    have h := hf s1 k1 rfl hx2
    exact ⟨h.1, h.2.1, fun hh => h.2.2 (hx3 hh)⟩

/-! ### C10 -/

/-- C10: although `relay_end_time` starts as `None`, the `None` value can
never reach the comparison of line 160 or the `min` of line 169: at startup
the relay is off with `relay_end_time = None`, and from any state satisfying
the invariant "relay on implies `relay_end_time` set" a loop iteration never
raises `TypeError`, re-establishes the invariant, and never resets
`relay_end_time` to `None` once a first activation has set it. -/
theorem relay_end_time_none_safety (σ : Nat → Time) (k : Nat) (env : Env)
    (s : State) :
    ((initMacerator σ k).1.relay = false ∧
     (initMacerator σ k).1.relay_end_time = none) ∧
    (RelayEndInv s →
      errKind (iterBody σ k env s) ≠ some PyError.typeError ∧
      RelayEndInv (resState (iterBody σ k env s)) ∧
      (s.relay_end_time ≠ none →
        (resState (iterBody σ k env s)).relay_end_time ≠ none)) := by
  refine ⟨⟨rfl, rfl⟩, fun hInv => ?_⟩
  unfold iterBody
  have h1 := temp_phase_safety σ (k+1) env (σ k) s hInv
  refine bindE_safety h1.1 h1.2.1 h1.2.2 ?_
  intro s1 k1 hok1 hInv1
  have h2 := relay_phase_safety σ k1 (σ k) s1 hInv1
  refine bindE_safety h2.1 h2.2.1 h2.2.2 ?_
  intro s2 k2 hok2 hInv2
  have h3 := display_phase_safety σ k2 (σ k) s2 hInv2
  refine bindE_safety h3.1 h3.2.1 h3.2.2 ?_
  intro s3 k3 hok3 hInv3
  exact sleep_step_safety (σ k) s3 k3 hInv3

/-- C10 witness: the invariant holds at `sActive` (relay on, deadline set),
so the iteration at time 0 raises no `TypeError` and keeps the deadline
set. -/
theorem relay_end_time_none_safety_witness :
    (initMacerator (fun _ => 0) 0).1.relay = false ∧
    (initMacerator (fun _ => 0) 0).1.relay_end_time = none ∧
    errKind (iterBody (fun _ => 0) 0 envOk sActive) ≠ some PyError.typeError ∧
    (resState (iterBody (fun _ => 0) 0 envOk sActive)).relay_end_time ≠ none := by
  have hInv : RelayEndInv sActive := by
    intro h
    decide
  have T := relay_end_time_none_safety (fun _ => 0) 0 envOk sActive
  exact ⟨T.1.1, T.1.2, (T.2 hInv).1, (T.2 hInv).2.2 (by decide)⟩

end Macerator

namespace Macerator

/-- A normally-completed loop iteration never changes
`end_maceration_time`. -/
theorem iterBody_ok_end (σ : Nat → Time) (k : Nat) (env : Env) (s s' : State)
    (k' : Nat) (h : iterBody σ k env s = .ok (s', k')) :
    s'.end_maceration_time = s.end_maceration_time := by
  unfold iterBody at h
  obtain ⟨s1, k1, h1, h⟩ := bindE_ok h
  obtain ⟨s2, k2, h2, h⟩ := bindE_ok h
  obtain ⟨s3, k3, h3, h⟩ := bindE_ok h
  obtain ⟨t, -, hs', -⟩ := sleep_step_ok (σ k) s3 k3 s' k' h
  have e1 : s1.end_maceration_time = s.end_maceration_time := by
    have := (temp_phase_fields σ (k+1) env (σ k) s).2.2.2.2.1
    rwa [resState_ok h1] at this
  have e2 : s2.end_maceration_time = s1.end_maceration_time := by
    have := (relay_phase_fields σ k1 (σ k) s1).2.2.1
    rwa [resState_ok h2] at this
  have e3 : s3.end_maceration_time = s2.end_maceration_time := by
    have := (display_phase_fields σ k2 (σ k) s2).2.2.2.2.1
    rwa [resState_ok h3] at this
  subst hs'
  simpa using (e3.trans e2).trans e1

/-! ### C8 -/

/-- C8: when the loop-condition clock read has reached `end_maceration_time`,
the loop immediately renders the completion message ("Zakonczono proces"
after an `lcd.clear()`) and terminates, running no further actions: every
scheduler field, the relay output (in particular a still-on relay stays on),
the send log and the sleep log are untouched. Conversely, as long as every
clock read stays before `end_maceration_time`, the loop never completes on
its own (it can only run out of fuel or die by exception). -/
theorem run_deadline_completion :
    (∀ (σ : Nat → Time) (envs : Nat → Env) (fuel i k : Nat) (s : State),
        s.end_maceration_time ≤ σ k →
        runLoop σ envs (fuel + 1) i k s = .ok (.finished (finish s) (k+1)) ∧
        (finish s).relay = s.relay ∧
        (finish s).lcd = [⟨0, 0, "Zakonczono proces"⟩] ∧
        (finish s).relay_end_time = s.relay_end_time ∧
        (finish s).next_temp_update = s.next_temp_update ∧
        (finish s).next_relay_activation = s.next_relay_activation ∧
        (finish s).next_second_update = s.next_second_update ∧
        (finish s).sends = s.sends ∧
        (finish s).slept = s.slept) ∧
    (∀ (σ : Nat → Time) (envs : Nat → Env) (fuel i k : Nat) (s s' : State) (k' : Nat),
        (∀ j, σ j < s.end_maceration_time) →
        runLoop σ envs fuel i k s ≠ .ok (.finished s' k')) := by
  constructor
  · intro σ envs fuel i k s h
    refine ⟨?_, rfl, rfl, rfl, rfl, rfl, rfl, rfl, rfl⟩
    unfold runLoop
    rw [if_neg (not_lt.mpr h)]
  · intro σ envs fuel
    induction fuel with
    | zero =>
      intro i k s s' k' h
      simp [runLoop]
    | succ n ih =>
      intro i k s s' k' h
      unfold runLoop
      rw [if_pos (h k)]
      cases hib : iterBody σ (k+1) (envs i) s with
      | error e => simp
      | ok p =>
        obtain ⟨s2, k2⟩ := p
        have hend : s2.end_maceration_time = s.end_maceration_time :=
          iterBody_ok_end σ (k+1) (envs i) s s2 k2 hib
        exact ih (i+1) k2 s2 s' k' (fun j => hend ▸ h j)

/-- C8 witness: from the mid-mixing state `sActive` (relay on, end of
maceration at 500000) a loop entered at time 600000 finishes at once with
the relay untouched, while under a clock pinned at 0 the one-iteration
unrolling does not finish. -/
theorem run_deadline_completion_witness :
    runLoop (fun _ => 600000) (fun _ => envOk) 1 0 0 sActive
      = .ok (.finished (finish sActive) 1) ∧
    (finish sActive).relay = sActive.relay ∧
    (finish sActive).lcd = [⟨0, 0, "Zakonczono proces"⟩] ∧
    runLoop (fun _ => 0) (fun _ => envOk) 1 0 0 sNothingDue
      ≠ .ok (.finished (finish sNothingDue) 1) := by
  have h := run_deadline_completion.1 (fun _ => 600000) (fun _ => envOk) 0 0 0
    sActive (by decide)
  exact ⟨h.1, h.2.1, h.2.2.1,
    run_deadline_completion.2 (fun _ => 0) (fun _ => envOk) 1 0 0 sNothingDue
      (finish sNothingDue) 1
      (fun _ => show (0 : Time) < sNothingDue.end_maceration_time by decide)⟩

end Macerator

namespace Macerator

theorem runLoop_succ (σ : Nat → Time) (envs : Nat → Env) (fuel i k : Nat)
    (s : State) :
    runLoop σ envs (fuel + 1) i k s =
      if σ k < s.end_maceration_time then
        match iterBody σ (k+1) (envs i) s with
        | .error e => .error e
        | .ok (s', k') => runLoop σ envs fuel (i+1) k' s'
      else .ok (.finished (finish s) (k+1)) := rfl

theorem runLoop_zero (σ : Nat → Time) (envs : Nat → Env) (i k : Nat) (s : State) :
    runLoop σ envs 0 i k s = .ok (.outOfFuel s k) := rfl

/-! ### C7 -/

/-- C7: under a clock pinned at the start instant `t0`, `set_initial_times`
initializes the three recurring deadlines to `t0`, leaves `relay_end_time`
as `None`, and sets the run deadline to `t0 + MACERATION_DURATION`; the
first loop iteration then fires the temperature update (deadline advanced
and telemetry sent), the relay activation (relay on, `relay_end_time` equal
to the activation time plus `RELAY_DURATION`), and the display refresh
(`next_second_update` advanced to `t0 + 1`) all at once. -/
theorem startup_deadlines_first_iteration (t0 : Time) (v : Int) (conn : Bool) :
    (initMacerator (fun _ => t0) 0).1.next_temp_update = t0 ∧
    (initMacerator (fun _ => t0) 0).1.next_relay_activation = t0 ∧
    (initMacerator (fun _ => t0) 0).1.next_second_update = t0 ∧
    (initMacerator (fun _ => t0) 0).1.relay_end_time = none ∧
    (initMacerator (fun _ => t0) 0).1.end_maceration_time
      = t0 + MACERATION_DURATION ∧
    (finalState (run (fun _ => t0) ⟨.ok v, true, conn⟩ (fun _ => ⟨.ok v, true, conn⟩)
        1 (initMacerator (fun _ => t0) 0).2 (initMacerator (fun _ => t0) 0).1)).relay
      = true ∧
    (finalState (run (fun _ => t0) ⟨.ok v, true, conn⟩ (fun _ => ⟨.ok v, true, conn⟩)
        1 (initMacerator (fun _ => t0) 0).2
        (initMacerator (fun _ => t0) 0).1)).relay_end_time
      = some (t0 + RELAY_DURATION) ∧
    (finalState (run (fun _ => t0) ⟨.ok v, true, conn⟩ (fun _ => ⟨.ok v, true, conn⟩)
        1 (initMacerator (fun _ => t0) 0).2
        (initMacerator (fun _ => t0) 0).1)).next_temp_update
      = t0 + TEMP_UPDATE_INTERVAL ∧
    (finalState (run (fun _ => t0) ⟨.ok v, true, conn⟩ (fun _ => ⟨.ok v, true, conn⟩)
        1 (initMacerator (fun _ => t0) 0).2
        (initMacerator (fun _ => t0) 0).1)).next_second_update
      = t0 + 1 ∧
    (finalState (run (fun _ => t0) ⟨.ok v, true, conn⟩ (fun _ => ⟨.ok v, true, conn⟩)
        1 (initMacerator (fun _ => t0) 0).2
        (initMacerator (fun _ => t0) 0).1)).sends
      = [jsonTemp v] := by
  have h1 : t0 < t0 + MACERATION_DURATION := lt_add_of_pos_right t0 (by decide)
  refine ⟨rfl, rfl, rfl, rfl, rfl, ?_, ?_, ?_, ?_, ?_⟩ <;>
  · simp only [run, initMacerator, set_initial_times, display_azure_connection_status,
      writeLcd, runLoop_succ, runLoop_zero, iterBody, bindE, temp_phase,
      update_temperature, set_next_temp_update_time, get_temperature_from_sensor,
      display_info_on_lcd, send_message, relay_phase, activate_relay,
      set_relay_end_time, display_blending_started_on_lcd, display_phase,
      update_relay_timer, display_time_on_lcd, sleep_step, next_event_time,
      relay_relevant_deadline, finalState]
    simp [h1]

end Macerator

namespace Macerator

/-! ### C6 (amended) -/

/-- C6 amended: one loop iteration takes a due-ness snapshot (the second
clock read — the `while` condition performs its own, earlier read) and the
three due-ness checks and the sleep clamp all use that snapshot `u`; but the
actions re-read the clock, so the iteration consumes several reads and the
deadline recomputation of the temperature action is based on the fresh,
later read `u + d`, not on the snapshot: after an iteration in which only
the temperature update fires, `next_temp_update = (u + d) +
TEMP_UPDATE_INTERVAL` while the sleep duration is clamped against the
snapshot `u`, and 4 clock reads were consumed. -/
theorem snapshot_checks_fresh_reschedules (t u d : Time) (s : State) (v : Int)
    (conn : Bool) (h_run : t < s.end_maceration_time)
    (h_temp : s.next_temp_update ≤ u) (h_relay : s.relay = false)
    (h_act : u < s.next_relay_activation) (h_disp : u < s.next_second_update) :
    (finalState (runLoop (fun i => if i = 0 then t else if i = 1 then u else u + d)
        (fun _ => ⟨.ok v, true, conn⟩) 1 0 0 s)).next_temp_update
      = (u + d) + TEMP_UPDATE_INTERVAL ∧
    (finalState (runLoop (fun i => if i = 0 then t else if i = 1 then u else u + d)
        (fun _ => ⟨.ok v, true, conn⟩) 1 0 0 s)).slept
      = max 0 (min (min ((u + d) + TEMP_UPDATE_INTERVAL) s.next_second_update)
          s.next_relay_activation - u) :: s.slept ∧
    finalIndex (runLoop (fun i => if i = 0 then t else if i = 1 then u else u + d)
        (fun _ => ⟨.ok v, true, conn⟩) 1 0 0 s) = some 4 := by
  have h_act' : ¬ s.next_relay_activation ≤ u := not_le.mpr h_act
  have h_disp' : ¬ s.next_second_update ≤ u := not_le.mpr h_disp
  simp only [runLoop_succ, runLoop_zero, iterBody, bindE, temp_phase,
    update_temperature, set_next_temp_update_time, get_temperature_from_sensor,
    display_info_on_lcd, display_azure_connection_status, writeLcd, send_message,
    relay_phase, display_phase, update_relay_timer, sleep_step, next_event_time,
    relay_relevant_deadline, finalState, finalIndex]
  norm_num [h_run, h_temp, h_relay, h_act', h_disp']

/-- C6 amended, witness: the concrete re-read scenario (snapshot 0, fresh
read 5) from `sTempDue`. -/
theorem snapshot_checks_fresh_reschedules_witness :
    (finalState (runLoop (fun i => if i = 0 then (0 : Time) else if i = 1 then 0 else 0 + 5)
        (fun _ => ⟨.ok 205, true, true⟩) 1 0 0 sTempDue)).next_temp_update
      = (0 + 5) + TEMP_UPDATE_INTERVAL ∧
    (finalState (runLoop (fun i => if i = 0 then (0 : Time) else if i = 1 then 0 else 0 + 5)
        (fun _ => ⟨.ok 205, true, true⟩) 1 0 0 sTempDue)).slept
      = max 0 (min (min ((0 + 5) + TEMP_UPDATE_INTERVAL) sTempDue.next_second_update)
          sTempDue.next_relay_activation - 0) :: sTempDue.slept ∧
    finalIndex (runLoop (fun i => if i = 0 then (0 : Time) else if i = 1 then 0 else 0 + 5)
        (fun _ => ⟨.ok 205, true, true⟩) 1 0 0 sTempDue) = some 4 :=
  snapshot_checks_fresh_reschedules 0 0 5 sTempDue 205 true (by decide) (by decide)
    rfl (by decide) (by decide)

end Macerator
